import Mathlib

/-
Verification development for the wallet-test repository.

The repository contains three near-identical page variants of the same wallet
session controller: src/pages/index.js (called variant A below), and two
variants concatenated in src/unnamed/part_000 (variant B at lines 1-451,
variant C at lines 452-955).  The definitions below are shallow embeddings of
the functions of those variants; each definition cites the lines it embeds.
External transport calls (wallet requests, signer derivation, network queries)
are modelled by explicit environment records carrying their outcomes.
-/

namespace WalletTest

/-- Models the JS membership test of one character list at the head of another. -/
def charsHeadMatch : List Char → List Char → Bool
  | [], _ => true
  | _ :: _, [] => false
  | a :: as, b :: bs => a == b && charsHeadMatch as bs

/-- Models a contiguous-sublist test on character lists. -/
def charsContain : List Char → List Char → Bool
  | [], pat => charsHeadMatch pat []
  | c :: rest, pat => charsHeadMatch pat (c :: rest) || charsContain rest pat

/-- Models the JS expression s.includes(pat), used on rdns strings and error
messages in all three variants. -/
def jsIncludes (s pat : String) : Bool :=
  charsContain s.data pat.data

/-- Value of one hexadecimal digit character, none when the character is not a
hexadecimal digit.  The numbers 48, 87 and 55 are the offsets of the digit,
lowercase and uppercase ranges in the character code table. -/
def hexDigitVal (c : Char) : Option Nat :=
  if c.isDigit then some (c.toNat - 48)
  else if ( 'a' ) ≤ c ∧ c ≤ ( 'f' ) then some (c.toNat - 87)
  else if ( 'A' ) ≤ c ∧ c ≤ ( 'F' ) then some (c.toNat - 55)
  else none

/-- Consumes leading hexadecimal digits, accumulating their value; stops at the
first character that is not a hexadecimal digit, as JS parseInt does. -/
def parseHexDigitsAux : List Char → Nat → Nat
  | [], acc => acc
  | c :: rest, acc =>
    match hexDigitVal c with
    | some d => parseHexDigitsAux rest (acc * 16 + d)
    | none => acc

/-- Models the JS builtin parseInt(s, 16): an optional 0x or 0X prefix is
stripped, then the longest leading run of hexadecimal digits is read; none
models NaN (no leading digit).  Leading whitespace and sign handling of the JS
builtin are not reached by any chain id in this repository and are omitted. -/
def jsParseIntHex (s : String) : Option Int :=
  let cs :=
    match s.data with
    | ( '0' ) :: ( 'x' ) :: rest => rest
    | ( '0' ) :: ( 'X' ) :: rest => rest
    | cs => cs
  match cs with
  | [] => none
  | c :: rest =>
    match hexDigitVal c with
    | none => none
    | some d => some (Int.ofNat (parseHexDigitsAux rest d))

/-- Dynamic JS value reaching sanitizeChainId: a string or a number. -/
inductive ChainIdValue where
  | str (s : String)
  | num (n : Int)
deriving DecidableEq

/-- Embeds sanitizeChainId from src/pages/index.js lines 37-38 and
src/unnamed/part_000 lines 16-17 and 468-469:
typeof chainId === "string" ? parseInt(chainId, 16) : Number(chainId).
The none result models NaN. -/
def sanitizeChainId : ChainIdValue → Option Int
  | ChainIdValue.str s => jsParseIntHex s
  | ChainIdValue.num n => some n

/-- Embeds targetChainId = sanitizeChainId(chainConfig.chainId) from
src/pages/index.js line 170 and src/unnamed/part_000 lines 190 and 674. -/
def targetChainIdOfConfig (cfgChainId : ChainIdValue) : Option Int :=
  sanitizeChainId cfgChainId

/-- EIP-6963 announcement payload info record. -/
structure ProviderInfo where
  uuid : String
  name : String
  rdns : String
deriving DecidableEq

/-- One entry of the discovered-provider registry: the info record together
with a transport handle (handles are opaque and modelled as numbers). -/
structure ProviderEntry where
  info : ProviderInfo
  provider : Nat
deriving DecidableEq

/-- Embeds the body of handleEip6963Announce from src/pages/index.js lines
51-58 and src/unnamed/part_000 lines 52-59 and 506-513: the announced entry is
appended unless an entry with the same uuid is already recorded. -/
def handleEip6963Announce (prev : List ProviderEntry) (e : ProviderEntry) :
    List ProviderEntry :=
  if prev.any (fun p => p.info.uuid == e.info.uuid) then prev
  else prev ++ [e]

/-- Registry obtained by feeding a sequence of announcement events to
handleEip6963Announce, starting from the initial empty registry. -/
def registryAfter (events : List ProviderEntry) : List ProviderEntry :=
  events.foldl handleEip6963Announce []

/-- Boolean test that an entry carries the given uuid. -/
def uuidMatches (u : String) (p : ProviderEntry) : Bool :=
  p.info.uuid == u

/-- One listener registration made by the page on a transport via .on:
the transport handle, the event name and the handler identity. -/
structure Listener where
  target : Nat
  eventName : String
  handlerName : String
deriving DecidableEq

/-- Error toasts surfaced by the controller (success and info toasts carry no
error and are not modelled). -/
inductive ToastKind where
  | connectionError
  | chainChangeError
deriving DecidableEq

/-- React state of the page component: the useState cells of the controller
(variant C, a superset of variants A and B), plus the list of listener
registrations the page has made on transports via .on and not yet removed via
removeListener.  Handles are opaque numbers; none models null. -/
structure AppState where
  provider : Option Nat
  signer : Option Nat
  address : String
  chainId : Option Int
  selectedWallet : Option ProviderInfo
  browserProvider : Option Nat
  wcProvider : Option Nat
  coinbaseWallet : Option Nat
  listeners : List Listener
deriving DecidableEq

/-- Initial component state: every cell null, no listeners registered. -/
def emptyState : AppState :=
  { provider := none, signer := none, address := (""), chainId := none,
    selectedWallet := none, browserProvider := none, wcProvider := none,
    coinbaseWallet := none, listeners := [] }

/-- The Session of the spec is absent: every session cell is at its null
value. -/
def sessionAbsent (s : AppState) : Prop :=
  s.provider = none ∧ s.signer = none ∧ s.address = ("") ∧ s.chainId = none ∧
  s.selectedWallet = none ∧ s.browserProvider = none ∧ s.wcProvider = none ∧
  s.coinbaseWallet = none

instance (s : AppState) : Decidable (sessionAbsent s) := by
  unfold sessionAbsent; infer_instance

/-- The tuple of session cells, used to state that a Session is preserved in
full. -/
def sessionOf (s : AppState) :
    Option Nat × Option Nat × Option Nat × String × Option Int ×
    Option ProviderInfo × Option Nat :=
  (s.provider, s.browserProvider, s.signer, s.address, s.chainId,
   s.selectedWallet, s.wcProvider)

/-- Embeds disconnectWallet from src/unnamed/part_000 lines 611-637 (variant C;
variants A and B at index.js lines 120-131 and part_000 lines 143-154 are the
same minus the coinbase cell): every session cell is reset to null.  The
transport disconnect calls and the delayed coinbase storage cleanup act only on
the external transport; no removeListener call occurs anywhere in the function,
so the listener registrations made by connectWallet are left in place. -/
def disconnectWallet (s : AppState) : AppState :=
  { s with provider := none, browserProvider := none, signer := none,
           address := (""), selectedWallet := none, chainId := none,
           wcProvider := none, coinbaseWallet := none }

/-- Embeds handleAccountsChanged from src/pages/index.js lines 133-135 and
src/unnamed/part_000 lines 156-158 and 639-641:
accounts.length === 0 ? disconnectWallet() : setAddress(accounts[0]). -/
def handleAccountsChanged (s : AppState) (accounts : List String) : AppState :=
  match accounts with
  | [] => disconnectWallet s
  | a :: _ => { s with address := a }

/-- Embeds handleChainChanged from src/pages/index.js lines 139-159 and
src/unnamed/part_000 lines 160-180 and 643-663: the sanitized chain id is
stored, then, when a provider is present, a fresh wrapper is built and the
signer and address are rederived; a rederivation failure surfaces a Chain
Change Error and leaves the previous signer and address in place.  newBP is
the fresh wrapper handle and signerResult the outcome of getSigner and
getAddress (none models a rejection). -/
def handleChainChanged (s : AppState) (v : ChainIdValue) (newBP : Nat)
    (signerResult : Option (Nat × String)) : AppState × List ToastKind :=
  let s1 := { s with chainId := sanitizeChainId v }
  match s.provider with
  | none => (s1, [])
  | some _ =>
    let s2 := { s1 with browserProvider := some newBP }
    match signerResult with
    | some sgacct => ({ s2 with address := sgacct.2, signer := some sgacct.1 }, [])
    | none => (s2, [ToastKind.chainChangeError])

/-- Appends one listener registration, modelling a transport .on call. -/
def addListener (s : AppState) (t : Nat) (ev handlerName : String) : AppState :=
  { s with listeners :=
      s.listeners ++ [{ target := t, eventName := ev, handlerName := handlerName }] }

/-- The pair of change listeners every connect branch installs:
t.on("accountsChanged", handleAccountsChanged); t.on("chainChanged", handleChainChanged). -/
def addChangeListeners (s : AppState) (t : Nat) : AppState :=
  addListener (addListener s t ("accountsChanged") ("handleAccountsChanged"))
    t ("chainChanged") ("handleChainChanged")

/-- Outcomes of the external calls connectWallet awaits, in source order.
wcInit is the EthereumProvider.init result (none models a throw, covering
construction failure and timeout); wcEnableOk the enable authorization;
windowEthereum the injected global provider with its isTrust flag;
coinbaseEthereum the coinbase provider resolvable from the window (none makes
variant C construct an SDK provider instead); requestAccountsOk the outcome of
eth_requestAccounts (false models rejection or timeout); the remaining fields
are the handles and values produced by the post-authorization steps, none
modelling a rejection there. -/
structure ConnectEnv where
  wcInit : Option Nat
  wcEnableOk : Bool
  windowEthereum : Option Nat
  ethIsTrust : Bool
  coinbaseEthereum : Option Nat
  coinbaseWalletHandle : Nat
  sdkProviderHandle : Nat
  requestAccountsOk : Bool
  ethersProviderHandle : Nat
  signerHandle : Option Nat
  signerAddress : Option String
  networkChainId : Option Int
deriving DecidableEq

/-- Shared tail of every connect branch, src/unnamed/part_000 lines 592-608:
getSigner, getAddress, getNetwork, then the session cells are written; any
rejection is caught by the surrounding handler, which surfaces one Connection
Error toast and keeps whatever state the branch had already written. -/
def finishConnect (s : AppState) (env : ConnectEnv) (info : ProviderInfo) :
    AppState × List ToastKind :=
  match env.signerHandle with
  | none => (s, [ToastKind.connectionError])
  | some sg =>
    match env.signerAddress with
    | none => (s, [ToastKind.connectionError])
    | some acct =>
      match env.networkChainId with
      | none => (s, [ToastKind.connectionError])
      | some net =>
        ({ s with browserProvider := some env.ethersProviderHandle,
                  signer := some sg, address := acct,
                  chainId := sanitizeChainId (ChainIdValue.num net),
                  selectedWallet := some info }, [])

/-- Embeds connectWallet from src/unnamed/part_000 lines 527-609 (variant C;
the construction and authorization prefixes of variants A and B are the same
on their common branches).  Branch selection follows the rdns.includes tests
in source order: walletconnect (init, enable, then provider cells and three
listeners), trust (requires the injected provider with the isTrust flag, else
a thrown not-installed error), coinbase (window provider when resolvable, else
the SDK wallet is constructed and recorded before authorization), and the
generic discovered-provider branch.  Every branch authorizes before writing
the provider cell and installing listeners; the shared tail then fills the
session.  Any rejection surfaces exactly one Connection Error toast. -/
def connectWallet (s : AppState) (sel : ProviderEntry) (env : ConnectEnv) :
    AppState × List ToastKind :=
  if jsIncludes sel.info.rdns ("walletconnect") then
    match env.wcInit with
    | none => (s, [ToastKind.connectionError])
    | some wc =>
      if env.wcEnableOk then
        let s1 := { s with provider := some wc, wcProvider := some wc }
        let s2 := addListener (addChangeListeners s1 wc) wc ("disconnect") ("wcDisconnect")
        finishConnect s2 env sel.info
      else (s, [ToastKind.connectionError])
  else if jsIncludes sel.info.rdns ("trust") then
    match env.windowEthereum with
    | some eth =>
      if env.ethIsTrust then
        if env.requestAccountsOk then
          finishConnect (addChangeListeners { s with provider := some eth } eth)
            env sel.info
        else (s, [ToastKind.connectionError])
      else (s, [ToastKind.connectionError])
    | none => (s, [ToastKind.connectionError])
  else if jsIncludes sel.info.rdns ("coinbase") then
    match env.coinbaseEthereum with
    | some eth =>
      if env.requestAccountsOk then
        finishConnect (addChangeListeners { s with provider := some eth } eth)
          env sel.info
      else (s, [ToastKind.connectionError])
    | none =>
      let s1 := { s with coinbaseWallet := some env.coinbaseWalletHandle }
      if env.requestAccountsOk then
        finishConnect
          (addChangeListeners { s1 with provider := some env.sdkProviderHandle }
            env.sdkProviderHandle) env sel.info
      else (s1, [ToastKind.connectionError])
  else
    if env.requestAccountsOk then
      finishConnect
        (addChangeListeners { s with provider := some sel.provider } sel.provider)
        env sel.info
    else (s, [ToastKind.connectionError])

/-- Error object thrown by a wallet request, with the fields switchChain
inspects: error.code, error.data.originalError.code (none when the data chain
is absent) and error.message. -/
structure JsError where
  code : Int
  dataOriginalErrorCode : Option Int
  msg : String
deriving DecidableEq

/-- Embeds the unknown-chain test of src/pages/index.js lines 227-228 and
src/unnamed/part_000 lines 254-255:
error.code === 4902, or a wrapped originalError.code === 4902, or
code === -32603 with a message containing Unrecognized chain ID. -/
def isUnknownChainError (e : JsError) : Bool :=
  e.code == 4902 || e.dataOriginalErrorCode == some 4902 ||
    (e.code == -32603 && jsIncludes e.msg ("Unrecognized chain ID"))

/-- Wallet requests issued during a chain switch. -/
inductive WalletReq where
  | switchReq (target : Int)
  | addReq (target : Int)
deriving DecidableEq

/-- Outcomes of the wallet requests a chain switch issues: hasProvider is
whether a transport is available (wcProvider or provider), switchOutcome n the
error thrown by the n-th wallet_switchEthereumChain request (none = accepted)
and addOutcome n likewise for the n-th wallet_addEthereumChain request. -/
structure SwitchEnv where
  hasProvider : Bool
  switchOutcome : Nat → Option JsError
  addOutcome : Nat → Option JsError

/-- Embeds the wallet-request trace of switchChain in variants A and B
(src/pages/index.js lines 161-269, src/unnamed/part_000 lines 182-294): no
request when the current chain already equals the target or no transport
exists; otherwise one switch request; when it throws an unknown-chain error,
addNetwork issues one add request and, when that is accepted, ends with
await switchChain(chainName) (index.js line 268, part_000 line 293), an
unbounded mutual recursion that fuel truncates. -/
def switchTraceAB (fuel : Nat) (env : SwitchEnv) (cur : Option Int)
    (target : Int) (si ai : Nat) : List WalletReq :=
  match fuel with
  | 0 => []
  | Nat.succ f =>
    if cur = some target then []
    else if env.hasProvider then
      match env.switchOutcome si with
      | none => [WalletReq.switchReq target]
      | some e =>
        if isUnknownChainError e then
          match env.addOutcome ai with
          | none =>
            WalletReq.switchReq target :: WalletReq.addReq target ::
              switchTraceAB f env cur target (si + 1) (ai + 1)
          | some _ => [WalletReq.switchReq target, WalletReq.addReq target]
        else [WalletReq.switchReq target]
    else []

/-- Embeds the wallet-request trace of switchChain in variant C
(src/unnamed/part_000 lines 665-761 with addNetwork at 763-786).  On the
WalletConnect path (wcProvider set), the switch request at lines 692-696 sits
outside the inner handler, so any error it throws, 4902 included, propagates
to the outer catch at line 755 with no add request.  On the non-WalletConnect
path, the inner handler at lines 703-714 catches only
switchError.code === 4902 and calls addNetwork, which issues the add request
and returns without a second switch request (line 786 ends addNetwork); every
other error propagates to the outer handler with no add request. -/
def switchTraceC (isWalletConnect : Bool) (env : SwitchEnv) (cur : Option Int)
    (target : Int) : List WalletReq :=
  if cur = some target then []
  else if env.hasProvider then
    if isWalletConnect then [WalletReq.switchReq target]
    else
      match env.switchOutcome 0 with
      | none => [WalletReq.switchReq target]
      | some e =>
        if e.code = 4902 then [WalletReq.switchReq target, WalletReq.addReq target]
        else [WalletReq.switchReq target]
  else []

/-- Embeds the post-request confirmation wait of src/pages/index.js lines
200-215 and src/unnamed/part_000 lines 227-242: the promise resolves only in
the temporary chainChanged handler, which removes itself first.  eventTime is
when the transport fires chainChanged (none = never).  Result: the settle time
of the wait (none = never settles) and whether the temporary listener has been
removed. -/
def switchWaitAB (eventTime : Option Nat) : Option Nat × Bool :=
  match eventTime with
  | some t => (some t, true)
  | none => (none, false)

/-- Embeds the post-request confirmation wait of src/unnamed/part_000 lines
720-733: the same temporary handler races a setTimeout of 5000 ms, and both
the handler and the timer callback remove the listener before resolving. -/
def switchWaitC (eventTime : Option Nat) : Option Nat × Bool :=
  match eventTime with
  | some t => (some (min t 5000), true)
  | none => (some 5000, true)

/-- Embeds the post-settle state update of variant B, src/unnamed/part_000
lines 217-224: on a provider with the isTrust flag the chain id cell is set
directly to the requested target with no network query; lines 244-248
otherwise run initializeProvider (lines 41-49), which stores the sanitized
freshly queried network id, and rederive the signer.  queriedNet is what
getNetwork reports on the re-initialized wrapper. -/
def switchSettleB (s : AppState) (isTrust : Bool) (target : Int)
    (queriedNet : Int) (newBP newSigner : Nat) : AppState :=
  if isTrust then
    { s with chainId := some target, browserProvider := some newBP,
             signer := some newSigner }
  else
    { s with browserProvider := some newBP,
             chainId := sanitizeChainId (ChainIdValue.num queriedNet),
             signer := some newSigner }

/-- Embeds the post-settle state update of variant A (src/pages/index.js lines
217-221, through initializeProvider at lines 40-48) and of variant C
(src/unnamed/part_000 lines 735-740): the chain id cell always comes from the
freshly queried network of the re-initialized wrapper. -/
def switchSettleAC (s : AppState) (queriedNet : Int) (newBP newSigner : Nat) :
    AppState :=
  { s with browserProvider := some newBP,
           chainId := sanitizeChainId (ChainIdValue.num queriedNet),
           signer := some newSigner }

/-- Transaction object built by sendTransaction (the fields shared by all
variants; gas fields are delegated to the transport and not modelled). -/
structure Tx where
  toAddr : String
  value : Int
  nonce : Nat
  chainId : Int
deriving DecidableEq

/-- Steps of sendTransaction observable from outside: the switchChain call,
the construction of the transaction object, and its submission. -/
inductive SendAction where
  | switchCall (target : Int)
  | buildTx (tx : Tx)
  | submitTx (tx : Tx)
deriving DecidableEq

/-- Result of sendTransaction.  noSigner is the early return; chainSwitchFailed
the throw at the post-switch recheck (part_000 lines 813-815, index.js lines
299-301), surfaced like every other failure as a Transaction Error toast;
txError any other caught failure; sent a submitted transaction. -/
inductive SendResult where
  | noSigner
  | chainSwitchFailed (expected got : Int)
  | txError
  | sent (tx : Tx)
deriving DecidableEq

/-- Outcomes of the external calls sendTransaction awaits:
queriedChainAfterSwitch is the sanitized network id read back after the
switch-and-reinit block (none models a rejection of that re-initialization);
senderAddress and nonce feed the transaction object; submitOk is whether
sendTransaction-and-wait on the signer succeeds. -/
structure SendEnv where
  queriedChainAfterSwitch : Option Int
  senderAddress : String
  nonce : Nat
  submitOk : Bool
deriving DecidableEq

/-- Transaction object construction, src/unnamed/part_000 lines 821-828: a
zero-value self transfer on the target chain with a freshly fetched nonce. -/
def buildTxStep (env : SendEnv) (target : Int) : Tx :=
  { toAddr := env.senderAddress, value := 0, nonce := env.nonce, chainId := target }

/-- Shared tail of sendTransaction once the chain is settled: build the
transaction object and submit it. -/
def sendOnChain (env : SendEnv) (target : Int) (pre : List SendAction) :
    SendResult × List SendAction :=
  let tx := buildTxStep env target
  if env.submitOk then
    (SendResult.sent tx, pre ++ [SendAction.buildTx tx, SendAction.submitTx tx])
  else
    (SendResult.txError, pre ++ [SendAction.buildTx tx, SendAction.submitTx tx])

/-- Embeds sendTransaction from src/unnamed/part_000 lines 788-843 (variant C;
index.js lines 271-338 is the same flow): early return without a signer; an
unknown chain name throws before anything else; when the session chain differs
from the target, switchChain runs first (its own errors are caught inside it),
then after a settle delay the chain is re-queried and compared with the
target, throwing when they still disagree; only then is the transaction object
built, with chainId set to the target, and submitted. -/
def sendTransaction (signerPresent : Bool) (configKnown : Bool)
    (cur : Option Int) (target : Int) (env : SendEnv) :
    SendResult × List SendAction :=
  if !signerPresent then (SendResult.noSigner, [])
  else if !configKnown then (SendResult.txError, [])
  else if cur = some target then
    sendOnChain env target []
  else
    match env.queriedChainAfterSwitch with
    | none => (SendResult.txError, [SendAction.switchCall target])
    | some q =>
      if q = target then sendOnChain env target [SendAction.switchCall target]
      else (SendResult.chainSwitchFailed target q, [SendAction.switchCall target])

/-- Concrete fixtures used by witnesses and counterexamples. -/
def mmInfo : ProviderInfo :=
  { uuid := ("mm-1"), name := ("MetaMask"), rdns := ("io.metamask") }

def mmEntry : ProviderEntry :=
  { info := mmInfo, provider := 7 }

def happyEnv : ConnectEnv :=
  { wcInit := none, wcEnableOk := true, windowEthereum := none,
    ethIsTrust := false, coinbaseEthereum := none, coinbaseWalletHandle := 30,
    sdkProviderHandle := 31, requestAccountsOk := true,
    ethersProviderHandle := 40, signerHandle := some 50,
    signerAddress := some ("0xabc"), networkChainId := some 1 }

def failEnv : ConnectEnv :=
  { happyEnv with wcEnableOk := false, requestAccountsOk := false }

def prevSessionState : AppState :=
  { provider := some 3, signer := some 4, address := ("0xprev"),
    chainId := some 1, selectedWallet := some mmInfo, browserProvider := some 5,
    wcProvider := none, coinbaseWallet := none,
    listeners := [{ target := 3, eventName := ("accountsChanged"),
                    handlerName := ("handleAccountsChanged") },
                  { target := 3, eventName := ("chainChanged"),
                    handlerName := ("handleChainChanged") }] }

/-- State reached by one successful connect from the initial state through the
generic discovered-provider branch. -/
def connectedState : AppState :=
  (connectWallet emptyState mmEntry happyEnv).1

lemma disconnect_absent (s : AppState) : sessionAbsent (disconnectWallet s) :=
  ⟨rfl, rfl, rfl, rfl, rfl, rfl, rfl, rfl⟩

/-- C2 counterexample: Disconnect does not leave zero registered change-event
listeners.  After a successful connect from the initial state, the two change
listeners installed by connectWallet are still registered after
disconnectWallet, which issues no removeListener call. -/
theorem disconnect_listeners_counterexample :
    (disconnectWallet connectedState).listeners =
      [{ target := 7, eventName := ("accountsChanged"),
         handlerName := ("handleAccountsChanged") },
       { target := 7, eventName := ("chainChanged"),
         handlerName := ("handleChainChanged") }]
    ∧ (disconnectWallet connectedState).listeners ≠ [] := by
  constructor
  · rfl
  · decide

/-- C2 amended: Disconnect always leaves the Session absent and is idempotent,
a state no-op when no Session exists, but it removes no listener: the listener
registrations are carried over unchanged. -/
theorem disconnect_session_amended (s : AppState) :
    sessionAbsent (disconnectWallet s)
    ∧ (disconnectWallet s).listeners = s.listeners
    ∧ disconnectWallet (disconnectWallet s) = disconnectWallet s
    ∧ (sessionAbsent s → disconnectWallet s = s) := by
  refine ⟨disconnect_absent s, rfl, rfl, ?_⟩
  obtain ⟨p, sg, a, c, w, bp, wc, cb, ls⟩ := s
  rintro ⟨h1, h2, h3, h4, h5, h6, h7, h8⟩
  simp only at h1 h2 h3 h4 h5 h6 h7 h8
  subst h1 h2 h3 h4 h5 h6 h7 h8
  rfl

/-- C2 witness: the amended theorem applied at the initial state. -/
theorem disconnect_session_amended_witness :
    disconnectWallet emptyState = emptyState :=
  (disconnect_session_amended emptyState).2.2.2
    ⟨rfl, rfl, rfl, rfl, rfl, rfl, rfl, rfl⟩

/-- C8: OnAccountsChanged with an empty list leaves the Session absent for
every prior state; with a non-empty list it updates exactly the account
address cell to the first entry. -/
theorem accountsChanged_disconnect_or_update (s : AppState) (accounts : List String) :
    (accounts = [] → sessionAbsent (handleAccountsChanged s accounts))
    ∧ ∀ a rest, accounts = a :: rest →
        handleAccountsChanged s accounts = { s with address := a } := by
  constructor
  · rintro rfl
    exact disconnect_absent s
  · rintro a rest rfl
    rfl

/-- C8 witness: the theorem applied at a concrete connected state, for the
empty and a non-empty notification. -/
theorem accountsChanged_disconnect_or_update_witness :
    sessionAbsent (handleAccountsChanged prevSessionState [])
    ∧ handleAccountsChanged prevSessionState [("0xnew")] =
        { prevSessionState with address := ("0xnew") } :=
  ⟨(accountsChanged_disconnect_or_update prevSessionState []).1 rfl,
   (accountsChanged_disconnect_or_update prevSessionState [("0xnew")]).2
     ("0xnew") [] rfl⟩

/-- C9: OnChainChanged stores the sanitized chain id in the session chain id
cell on every path; sanitization sends a numeric value to itself and parses a
hex string in base 16, so the hex string 0x89 yields 137. -/
theorem chainChanged_normalizes_and_stores :
    (∀ (s : AppState) (v : ChainIdValue) (newBP : Nat)
        (sr : Option (Nat × String)),
        ((handleChainChanged s v newBP sr).1).chainId = sanitizeChainId v)
    ∧ (∀ n : Int, sanitizeChainId (ChainIdValue.num n) = some n)
    ∧ sanitizeChainId (ChainIdValue.str ("0x89")) = some 137 := by
  refine ⟨?_, fun n => rfl, by decide⟩
  intro s v newBP sr
  unfold handleChainChanged
  cases s.provider with
  | none => rfl
  | some p =>
    cases sr with
    | none => rfl
    | some sgacct => rfl

/-- C10: chain-id normalization of a string is parseInt(s, 16) even without a
0x prefix, so the decimal-digit string 137 normalizes to 311, not 137, and a
Chain Config chainId supplied as a decimal string is interpreted as
hexadecimal when computing the switch target. -/
theorem sanitizeChainId_hex_for_all_strings :
    (∀ s : String, sanitizeChainId (ChainIdValue.str s) = jsParseIntHex s)
    ∧ sanitizeChainId (ChainIdValue.str ("137")) = some 311
    ∧ sanitizeChainId (ChainIdValue.str ("137")) ≠ some 137
    ∧ targetChainIdOfConfig (ChainIdValue.str ("137")) = some 311 := by
  refine ⟨fun s => rfl, by decide, by decide, by decide⟩

/-- C3 counterexample: the confirmation wait of src/pages/index.js (and of the
first part_000 variant) has no timer; when the transport never fires
chainChanged it never settles, so the wait is not bounded by 5 seconds. -/
theorem switch_wait_unbounded_counterexample :
    (switchWaitAB none).1 = none ∧ (switchWaitAB none).2 = false := by
  exact ⟨rfl, rfl⟩

/-- C3 amended: only the second part_000 variant races the chain-changed
notification against a 5000 ms timer; that wait always settles, no later than
5000 ms and no later than the notification, and removes its temporary listener
on both settling paths.  The waits of index.js and of the first part_000
variant settle exactly when the notification arrives, removing the listener
then, and never settle otherwise. -/
theorem switch_wait_amended (e : Option Nat) :
    (∃ t, (switchWaitC e).1 = some t ∧ t ≤ 5000 ∧ ∀ u, e = some u → t ≤ u)
    ∧ (switchWaitC e).2 = true
    ∧ (∀ t, e = some t → switchWaitAB e = (some t, true))
    ∧ (e = none → (switchWaitAB e).1 = none) := by
  cases e with
  | none =>
    refine ⟨⟨5000, rfl, le_refl 5000, ?_⟩, rfl, ?_, fun _ => rfl⟩
    · intro u hu; cases hu
    · intro t ht; cases ht
  | some u =>
    refine ⟨⟨min u 5000, rfl, min_le_right u 5000, ?_⟩, rfl, ?_, ?_⟩
    · intro v hv
      cases hv
      exact min_le_left u 5000
    · intro t ht
      cases ht
      rfl
    · intro h; cases h

/-- C3 witness: the amended theorem applied at a notification arriving at 7000
ms, where the timer settles the wait first. -/
theorem switch_wait_amended_witness :
    switchWaitAB (some 7000) = (some 7000, true) :=
  (switch_wait_amended (some 7000)).2.2.1 7000 rfl

/-- C6 counterexample: the Trust Wallet path of the first part_000 variant
sets the session chain id to the requested target (137) although the freshly
queried network reports chain 1: the chain id is assumed, not queried. -/
theorem trust_assumed_chainId_counterexample :
    (switchSettleB emptyState true 137 1 8 9).chainId = some 137
    ∧ sanitizeChainId (ChainIdValue.num 1) = some 1
    ∧ (switchSettleB emptyState true 137 1 8 9).chainId ≠
        sanitizeChainId (ChainIdValue.num 1) := by
  refine ⟨rfl, rfl, by decide⟩

/-- C6 amended: after a switch settles, index.js and the second part_000
variant, and the non-Trust path of the first part_000 variant, store the
sanitized freshly queried network id; the Trust Wallet path of the first
part_000 variant instead stores the requested target unqueried. -/
theorem post_switch_chainId_amended (s : AppState) (target queriedNet : Int)
    (bp sg : Nat) :
    (switchSettleAC s queriedNet bp sg).chainId =
        sanitizeChainId (ChainIdValue.num queriedNet)
    ∧ (switchSettleB s false target queriedNet bp sg).chainId =
        sanitizeChainId (ChainIdValue.num queriedNet)
    ∧ (switchSettleB s true target queriedNet bp sg).chainId = some target := by
  exact ⟨rfl, rfl, rfl⟩

/-- C1: when Connect fails at transport construction (init rejected, wallet
not installed), authorization (enable or eth_requestAccounts rejected) or
their timeouts — modelled by wcEnableOk and requestAccountsOk false, so that
every branch fails in one of these ways wherever the earlier construction
steps let it get that far — the session cells and the listener registrations
are unchanged and exactly one Connection Error is surfaced. -/
theorem connect_failure_preserves_session (s : AppState) (sel : ProviderEntry)
    (env : ConnectEnv) (hE : env.wcEnableOk = false)
    (hR : env.requestAccountsOk = false) :
    sessionOf (connectWallet s sel env).1 = sessionOf s
    ∧ ((connectWallet s sel env).1).listeners = s.listeners
    ∧ (connectWallet s sel env).2 = [ToastKind.connectionError] := by
  by_cases h1 : jsIncludes sel.info.rdns ("walletconnect") = true
  · cases hwc : env.wcInit with
    | none => simp [connectWallet, h1, hwc]
    | some wc => simp [connectWallet, h1, hwc, hE]
  · by_cases h2 : jsIncludes sel.info.rdns ("trust") = true
    · cases hwe : env.windowEthereum with
      | none => simp [connectWallet, h1, h2, hwe]
      | some eth =>
        cases hit : env.ethIsTrust with
        | false => simp [connectWallet, h1, h2, hwe, hit]
        | true => simp [connectWallet, h1, h2, hwe, hit, hR]
    · by_cases h3 : jsIncludes sel.info.rdns ("coinbase") = true
      · cases hcb : env.coinbaseEthereum with
        | none => simp [connectWallet, sessionOf, h1, h2, h3, hcb, hR]
        | some eth => simp [connectWallet, h1, h2, h3, hcb, hR]
      · simp [connectWallet, h1, h2, h3, hR]

/-- C1 witness: a rejected connect attempt against an existing session leaves
that session intact and surfaces one Connection Error. -/
theorem connect_failure_preserves_session_witness :
    sessionOf (connectWallet prevSessionState mmEntry failEnv).1 =
        sessionOf prevSessionState
    ∧ ((connectWallet prevSessionState mmEntry failEnv).1).listeners =
        prevSessionState.listeners
    ∧ (connectWallet prevSessionState mmEntry failEnv).2 =
        [ToastKind.connectionError] :=
  connect_failure_preserves_session prevSessionState mmEntry failEnv rfl rfl

lemma sendOnChain_snd (env : SendEnv) (target : Int) (pre : List SendAction) :
    (sendOnChain env target pre).2 =
      pre ++ [SendAction.buildTx (buildTxStep env target),
              SendAction.submitTx (buildTxStep env target)] := by
  unfold sendOnChain
  split <;> rfl

/-- C5: with an active signer, a known chain config and a session chain
differing from the target, sendTransaction invokes the chain switch before any
transaction object is built, every transaction object it builds carries the
target chain id, and when the re-queried chain still disagrees with the target
the call fails at the chainSwitchFailed throw with nothing submitted. -/
theorem sendTransaction_chain_guard (cur : Option Int) (target : Int)
    (env : SendEnv) (hne : cur ≠ some target) :
    (∃ rest, (sendTransaction true true cur target env).2 =
        SendAction.switchCall target :: rest)
    ∧ (∀ tx, SendAction.buildTx tx ∈ (sendTransaction true true cur target env).2 →
        tx.chainId = target)
    ∧ (∀ q, env.queriedChainAfterSwitch = some q → q ≠ target →
        (sendTransaction true true cur target env).1 =
            SendResult.chainSwitchFailed target q
        ∧ ∀ tx, SendAction.submitTx tx ∉ (sendTransaction true true cur target env).2) := by
  cases hq : env.queriedChainAfterSwitch with
  | none =>
    have hbase : sendTransaction true true cur target env =
        (SendResult.txError, [SendAction.switchCall target]) := by
      simp [sendTransaction, hne, hq]
    refine ⟨⟨[], by rw [hbase]⟩, ?_, ?_⟩
    · intro tx htx
      rw [hbase] at htx
      simp at htx
    · intro q hq2
      simp at hq2
  | some q =>
    by_cases hqt : q = target
    · have hbase : sendTransaction true true cur target env =
          sendOnChain env target [SendAction.switchCall target] := by
        simp [sendTransaction, hne, hq, hqt]
      refine ⟨⟨[SendAction.buildTx (buildTxStep env target),
                 SendAction.submitTx (buildTxStep env target)],
               by rw [hbase, sendOnChain_snd]; rfl⟩, ?_, ?_⟩
      · intro tx htx
        rw [hbase, sendOnChain_snd] at htx
        simp only [List.mem_append, List.mem_cons, List.mem_singleton,
          List.not_mem_nil, or_false] at htx
        rcases htx with h | h | h
        · cases h
        · cases h; rfl
        · cases h
      · intro q2 hq2 hq2t
        cases hq2
        exact absurd hqt hq2t
    · have hbase : sendTransaction true true cur target env =
          (SendResult.chainSwitchFailed target q, [SendAction.switchCall target]) := by
        simp [sendTransaction, hne, hq, hqt]
      refine ⟨⟨[], by rw [hbase]⟩, ?_, ?_⟩
      · intro tx htx
        rw [hbase] at htx
        simp at htx
      · intro q2 hq2 hq2t
        cases hq2
        constructor
        · rw [hbase]
        · intro tx htx
          rw [hbase] at htx
          simp at htx

/-- C5 witness: target 137 from chain 1 with the re-queried chain still 5:
the switch runs first and the call ends at the chainSwitchFailed throw. -/
def mismatchSendEnv : SendEnv :=
  { queriedChainAfterSwitch := some 5, senderAddress := ("0xme"),
    nonce := 0, submitOk := true }

theorem sendTransaction_chain_guard_witness :
    (∃ rest, (sendTransaction true true (some 1) 137 mismatchSendEnv).2 =
        SendAction.switchCall 137 :: rest)
    ∧ (sendTransaction true true (some 1) 137 mismatchSendEnv).1 =
        SendResult.chainSwitchFailed 137 5 :=
  ⟨(sendTransaction_chain_guard (some 1) 137 mismatchSendEnv (by decide)).1,
   ((sendTransaction_chain_guard (some 1) 137 mismatchSendEnv (by decide)).2.2
      5 rfl (by decide)).1⟩

lemma switchTraceAB_zero (env : SwitchEnv) (cur : Option Int) (target : Int)
    (si ai : Nat) : switchTraceAB 0 env cur target si ai = [] := rfl

lemma switchTraceAB_succ (f : Nat) (env : SwitchEnv) (cur : Option Int)
    (target : Int) (si ai : Nat) :
    switchTraceAB (f + 1) env cur target si ai =
      (if cur = some target then []
       else if env.hasProvider then
        match env.switchOutcome si with
        | none => [WalletReq.switchReq target]
        | some e =>
          if isUnknownChainError e then
            match env.addOutcome ai with
            | none =>
              WalletReq.switchReq target :: WalletReq.addReq target ::
                switchTraceAB f env cur target (si + 1) (ai + 1)
            | some _ => [WalletReq.switchReq target, WalletReq.addReq target]
          else [WalletReq.switchReq target]
       else []) := rfl

lemma switchTraceAB_take_one (f : Nat) (env : SwitchEnv) (cur : Option Int)
    (target : Int) (si ai : Nat) (hne : ¬ cur = some target)
    (hp : env.hasProvider = true) :
    (switchTraceAB (f + 1) env cur target si ai).take 1 =
      [WalletReq.switchReq target] := by
  rw [switchTraceAB_succ, if_neg hne, if_pos hp]
  cases h : env.switchOutcome si with
  | none => rfl
  | some e =>
    by_cases hu : isUnknownChainError e = true
    · simp only [hu, if_true]
      cases h2 : env.addOutcome ai <;> rfl
    · simp only [Bool.not_eq_true] at hu
      simp only [hu, Bool.false_eq_true, if_false]
      rfl

/-- An error with code 4902 and the environment in which every switch request
is rejected with it while every add request is accepted. -/
def err4902 : JsError :=
  { code := 4902, dataOriginalErrorCode := none, msg := ("") }

def env4902 : SwitchEnv :=
  { hasProvider := true, switchOutcome := fun _ => some err4902,
    addOutcome := fun _ => none }

/-- Counts the switch requests of a trace. -/
def countSwitchReqs (l : List WalletReq) : Nat :=
  l.countP (fun r => match r with | WalletReq.switchReq _ => true | _ => false)

/-- C4 counterexample: in the second part_000 variant, a 4902 switch failure
on the non-WalletConnect path triggers the AddChain request but no second
switch attempt follows it -- the trace holds exactly one switch request, as
addNetwork there ends without calling switchChain again; and on the
WalletConnect path the same 4902 failure triggers no AddChain at all. -/
theorem addchain_no_retry_counterexample :
    switchTraceC false env4902 (some 1) 137 =
      [WalletReq.switchReq 137, WalletReq.addReq 137]
    ∧ countSwitchReqs (switchTraceC false env4902 (some 1) 137) = 1
    ∧ switchTraceC true env4902 (some 1) 137 = [WalletReq.switchReq 137] := by
  refine ⟨rfl, rfl, rfl⟩

/-- C4 amended: in index.js and the first part_000 variant an unknown-chain
failure (4902 or a wrapped equivalent) of the switch request leads to exactly
one AddChain request followed by a second switch attempt, and any other switch
failure issues no AddChain; in the second part_000 variant a 4902 failure on
the non-WalletConnect path issues the AddChain request without a second switch
attempt, while on the WalletConnect path the failing switch request issues no
AddChain at all. -/
theorem addchain_fallback_amended (env : SwitchEnv) (cur : Option Int)
    (target : Int) (e : JsError) (hne : cur ≠ some target)
    (hp : env.hasProvider = true) (h0 : env.switchOutcome 0 = some e)
    (ha : env.addOutcome 0 = none) :
    (isUnknownChainError e = true →
        (switchTraceAB 2 env cur target 0 0).take 3 =
          [WalletReq.switchReq target, WalletReq.addReq target,
           WalletReq.switchReq target])
    ∧ (isUnknownChainError e = false →
        switchTraceAB 2 env cur target 0 0 = [WalletReq.switchReq target])
    ∧ (e.code = 4902 →
        switchTraceC false env cur target =
          [WalletReq.switchReq target, WalletReq.addReq target])
    ∧ switchTraceC true env cur target = [WalletReq.switchReq target] := by
  refine ⟨?_, ?_, ?_, ?_⟩
  · intro hu
    have h2 : (2 : Nat) = 1 + 1 := rfl
    rw [h2, switchTraceAB_succ, if_neg hne, if_pos hp, h0]
    simp only [hu, if_true, ha]
    have ht : ([WalletReq.switchReq target, WalletReq.addReq target] ++
        switchTraceAB 1 env cur target 1 1).take 3 =
        WalletReq.switchReq target :: WalletReq.addReq target ::
          (switchTraceAB 1 env cur target 1 1).take 1 := rfl
    rw [show WalletReq.switchReq target :: WalletReq.addReq target ::
          switchTraceAB 1 env cur target 1 1 =
        [WalletReq.switchReq target, WalletReq.addReq target] ++
          switchTraceAB 1 env cur target 1 1 from rfl, ht,
        switchTraceAB_take_one 0 env cur target 1 1 hne hp]
  · intro hu
    have h2 : (2 : Nat) = 1 + 1 := rfl
    rw [h2, switchTraceAB_succ, if_neg hne, if_pos hp, h0]
    simp only [hu, Bool.false_eq_true, if_false]
  · intro hc
    unfold switchTraceC
    rw [if_neg hne, if_pos hp, h0]
    simp only [Bool.false_eq_true, if_false, hc, if_true]
  · unfold switchTraceC
    rw [if_neg hne, if_pos hp]
    rfl

/-- C4 witness: the amended theorem applied to the 4902 environment, for the
first part_000 variant trace. -/
theorem addchain_fallback_amended_witness :
    (switchTraceAB 2 env4902 (some 1) 137 0 0).take 3 =
      [WalletReq.switchReq 137, WalletReq.addReq 137, WalletReq.switchReq 137] :=
  (addchain_fallback_amended env4902 (some 1) 137 err4902 (by decide) rfl rfl rfl).1
    (by decide)

lemma handleAnnounce_dup (prev : List ProviderEntry) (e : ProviderEntry)
    (h : prev.any (fun p => p.info.uuid == e.info.uuid) = true) :
    handleEip6963Announce prev e = prev := by
  simp [handleEip6963Announce, h]

lemma handleAnnounce_new (prev : List ProviderEntry) (e : ProviderEntry)
    (h : prev.any (fun p => p.info.uuid == e.info.uuid) = false) :
    handleEip6963Announce prev e = prev ++ [e] := by
  simp [handleEip6963Announce, h]

lemma countP_handle_le (prev : List ProviderEntry) (e : ProviderEntry)
    (u : String) (h : ∀ v, prev.countP (uuidMatches v) ≤ 1) :
    (handleEip6963Announce prev e).countP (uuidMatches u) ≤ 1 := by
  cases hdup : prev.any (fun p => p.info.uuid == e.info.uuid) with
  | true => rw [handleAnnounce_dup prev e hdup]; exact h u
  | false =>
    rw [handleAnnounce_new prev e hdup, List.countP_append]
    by_cases hu : uuidMatches u e = true
    · have h0 : prev.countP (uuidMatches u) = 0 := by
        rw [List.countP_eq_zero]
        intro p hp hpu
        have hex : prev.any (fun p => p.info.uuid == e.info.uuid) = true := by
          rw [List.any_eq_true]
          refine ⟨p, hp, ?_⟩
          have h1 : p.info.uuid = u := eq_of_beq hpu
          have h2 : e.info.uuid = u := eq_of_beq hu
          rw [h1, h2]
          exact beq_self_eq_true u
        rw [hdup] at hex
        cases hex
      rw [h0]
      simp [List.countP_cons, hu]
    · simp only [Bool.not_eq_true] at hu
      have h1 : List.countP (uuidMatches u) [e] = 0 := by
        simp [List.countP_cons, hu]
      rw [h1]
      simpa using h u

lemma countP_foldl_le_one (events : List ProviderEntry) :
    ∀ prev : List ProviderEntry,
      (∀ v, prev.countP (uuidMatches v) ≤ 1) →
      ∀ u, ((events.foldl handleEip6963Announce prev).countP (uuidMatches u)) ≤ 1 := by
  induction events with
  | nil => intro prev h u; simpa using h u
  | cons e rest ih =>
    intro prev h u
    simp only [List.foldl_cons]
    exact ih (handleEip6963Announce prev e) (fun v => countP_handle_le prev e v h) u

lemma countP_handle_ge (prev : List ProviderEntry) (e : ProviderEntry)
    (u : String) :
    prev.countP (uuidMatches u) ≤
      (handleEip6963Announce prev e).countP (uuidMatches u) := by
  cases hdup : prev.any (fun p => p.info.uuid == e.info.uuid) with
  | true => rw [handleAnnounce_dup prev e hdup]
  | false =>
    rw [handleAnnounce_new prev e hdup, List.countP_append]
    exact Nat.le_add_right _ _

lemma countP_foldl_ge (events : List ProviderEntry) :
    ∀ (prev : List ProviderEntry) (u : String),
      prev.countP (uuidMatches u) ≤
        ((events.foldl handleEip6963Announce prev).countP (uuidMatches u)) := by
  induction events with
  | nil => intro prev u; exact Nat.le_refl _
  | cons e rest ih =>
    intro prev u
    simp only [List.foldl_cons]
    exact Nat.le_trans (countP_handle_ge prev e u) (ih (handleEip6963Announce prev e) u)

lemma countP_foldl_mem (events : List ProviderEntry) :
    ∀ (prev : List ProviderEntry) (e : ProviderEntry), e ∈ events →
      1 ≤ ((events.foldl handleEip6963Announce prev).countP
            (uuidMatches e.info.uuid)) := by
  induction events with
  | nil => intro prev e h; cases h
  | cons x rest ih =>
    intro prev e h
    simp only [List.foldl_cons]
    rcases List.mem_cons.mp h with rfl | hmem
    · refine Nat.le_trans ?_ (countP_foldl_ge rest (handleEip6963Announce prev e)
        e.info.uuid)
      cases hdup : prev.any (fun p => p.info.uuid == e.info.uuid) with
      | true =>
        rw [handleAnnounce_dup prev e hdup]
        obtain ⟨p, hp, hb⟩ := List.any_eq_true.mp hdup
        have hpe : uuidMatches e.info.uuid p = true := hb
        exact List.countP_pos_iff.mpr ⟨p, hp, hpe⟩
      | false =>
        rw [handleAnnounce_new prev e hdup, List.countP_append]
        have he : uuidMatches e.info.uuid e = true := beq_self_eq_true _
        have h1 : List.countP (uuidMatches e.info.uuid) [e] = 1 := by
          simp [List.countP_cons, he]
        rw [h1]
        exact Nat.le_add_left 1 _
    · exact ih (handleEip6963Announce prev x) e hmem

/-- C7: announcing an already recorded uniqueId is an exact identity on the
registry, and for every sequence of announcement events the registry holds
exactly one entry carrying each announced uniqueId. -/
theorem registry_unique_per_uuid :
    (∀ (prev : List ProviderEntry) (e : ProviderEntry),
        prev.any (fun p => p.info.uuid == e.info.uuid) = true →
        handleEip6963Announce prev e = prev)
    ∧ ∀ (events : List ProviderEntry) (e : ProviderEntry), e ∈ events →
        (registryAfter events).countP (uuidMatches e.info.uuid) = 1 := by
  constructor
  · exact handleAnnounce_dup
  · intro events e he
    have h1 := countP_foldl_mem events [] e he
    have h2 := countP_foldl_le_one events [] (fun v => by simp) e.info.uuid
    unfold registryAfter
    omega

/-- C7 witness: two announcements sharing a uniqueId leave one entry; the
duplicate announcement is an identity. -/
def dupEntryA : ProviderEntry :=
  { info := { uuid := ("uuid-1"), name := ("WalletA"), rdns := ("com.a") },
    provider := 1 }

def dupEntryB : ProviderEntry :=
  { info := { uuid := ("uuid-1"), name := ("WalletA clone"), rdns := ("com.b") },
    provider := 2 }

theorem registry_unique_per_uuid_witness :
    handleEip6963Announce [dupEntryA] dupEntryB = [dupEntryA]
    ∧ (registryAfter [dupEntryA, dupEntryB]).countP
        (uuidMatches dupEntryA.info.uuid) = 1 :=
  ⟨registry_unique_per_uuid.1 [dupEntryA] dupEntryB (by decide),
   registry_unique_per_uuid.2 [dupEntryA, dupEntryB] dupEntryA (by decide)⟩

end WalletTest
